import Mathlib

/-!
Shallow embedding of the payment/credit fulfillment engine of this
repository (src/server.js, src/database.js, src/services/sync.js).

Modelling conventions:
* SQLite tables become Lean lists; each row is a structure.
* Timestamps (ISO strings in the source) become `Nat` milliseconds; the
  date-prefix comparison `iso.split('T')[0]` used by the daily-reset logic
  becomes `dayOf` (milliseconds divided by one day).
* `async`/`await` sequencing becomes plain sequential state passing.
* HTTP responses are reduced to the status code plus the `remaining`
  balance payload (the only response fields the properties below inspect).
* The JSON payload stored in the sync queue (`JSON.stringify(data)`) is
  not inspected by any operation in the source, so `SyncItem` records only
  the queue id, collection, docId and operation.
-/

namespace PaymentAPI

/-- Transaction lifecycle states used by the source
(`PENDING`, `MANUAL_VERIFYING`, `COMPLETED`, `FAILED`). -/
inductive Status where
  | PENDING
  | MANUAL_VERIFYING
  | COMPLETED
  | FAILED
deriving DecidableEq, Repr

/-- One entry of the static plan catalog `PLANS` in src/server.js. -/
structure Plan where
  credits : Int
  price : Int
  durationDays : Option Nat := none
  name : Option String := none
deriving DecidableEq, Repr

/-- The static plan catalog `PLANS` of src/server.js (lines 768-774). -/
def PLANS : String → Option Plan
  | "starter" => some { credits := 3, price := 10 }
  | "pro" => some { credits := 19, price := 29 }
  | "unlimited" => some { credits := 9999, price := 99, durationDays := some 30 }
  | "BASIC_LABS" => some { credits := 0, price := 39, name := some "Report Labs" }
  | "REPORT_LABS" => some { credits := 0, price := 39, name := some "Report Labs" }
  | _ => none

/-- A row of the `transactions` table (src/database.js, createTables). -/
structure Txn where
  id : String
  uid : String
  planId : String
  amount : Int
  phone : String
  mpesaCode : Option String := none
  status : Status
  type : String
  createdAt : Nat
  verifiedAt : Option Nat := none
  failureReason : Option String := none
  verificationMetadata : Option String := none
deriving DecidableEq, Repr

/-- A row of the `users` table (src/database.js, createTables). -/
structure User where
  uid : String
  email : Option String := none
  credits : Int
  unlimitedExpiresAt : Option Nat := none
  lastDailyReset : Option Nat := none
  lastPaymentRef : String
deriving DecidableEq, Repr

/-- A row of the `sync_queue` table: AUTOINCREMENT id, collection, docId,
operation.  The serialized JSON payload is never read back by the code
modelled here, so it is omitted. -/
structure SyncItem where
  id : Nat
  collection : String
  docId : String
  operation : String
deriving DecidableEq, Repr

/-- The local SQLite database state: the two primary tables and the
append-only outbox.  `nextSyncId` models the AUTOINCREMENT counter of
`sync_queue`. -/
structure DB where
  transactions : List Txn
  users : List User
  syncQueue : List SyncItem
  nextSyncId : Nat
deriving DecidableEq, Repr

/-- Day index of a millisecond timestamp; models taking the `YYYY-MM-DD`
prefix of an ISO timestamp (`iso.split('T')[0]`). -/
def dayOf (t : Nat) : Nat := t / 86400000

/-- Models `LocalDatabase.addToSyncQueue` (src/database.js): append one outbox row;
AUTOINCREMENT assigns the next id. -/
def addToSyncQueue (db : DB) (collection docId operation : String) : DB :=
  { db with
    syncQueue := db.syncQueue ++ [{ id := db.nextSyncId, collection, docId, operation }]
    nextSyncId := db.nextSyncId + 1 }

/-- Models `LocalDatabase.getTransaction` (src/database.js):
`SELECT * FROM transactions WHERE id = ?`. -/
def getTransaction (db : DB) (id : String) : Option Txn :=
  db.transactions.find? (fun t => t.id == id)

/-- Models `LocalDatabase.getTransactionByCode` (src/database.js):
`SELECT * FROM transactions WHERE mpesaCode = ?`. -/
def getTransactionByCode (db : DB) (code : String) : Option Txn :=
  db.transactions.find? (fun t => t.mpesaCode == some code)

/-- Models `LocalDatabase.createTransaction` (src/database.js): INSERT the row,
then queue an outbox `create` for it. -/
def createTransaction (db : DB) (t : Txn) : DB :=
  addToSyncQueue { db with transactions := db.transactions ++ [t] }
    "transactions" t.id "create"

/-- Models `LocalDatabase.updateTransactionStatus` (src/database.js): the UPDATE
sets all four columns, so any field absent from `updates` becomes NULL;
then an outbox `update` is queued. -/
def updateTransactionStatus (db : DB) (id : String) (status : Status)
    (verifiedAt : Option Nat) (failureReason : Option String)
    (verificationMetadata : Option String) : DB :=
  let db' := { db with
    transactions := db.transactions.map (fun t =>
      if t.id == id then
        { t with status, verifiedAt, failureReason, verificationMetadata }
      else t) }
  addToSyncQueue db' "transactions" id "update"

/-- Models `LocalDatabase.getUser` (src/database.js, lines 767-810): read the
account, lazily creating it with the 3-credit first-day bonus, and apply
the lazy daily-reset rule.  Returns the account as read plus the new DB
state.  Note: neither the reset nor the creation queues a sync item. -/
def getUser (db : DB) (uid : String) (now : Nat) : User × DB :=
  match db.users.find? (fun u => u.uid == uid) with
  | some u =>
      if (u.lastDailyReset.map dayOf) ≠ some (dayOf now) then
        if u.credits < 3 then
          let u' := { u with credits := 3, lastDailyReset := some now }
          (u', { db with users := db.users.map (fun v => if v.uid == uid then u' else v) })
        else
          let u' := { u with lastDailyReset := some now }
          (u', { db with users := db.users.map (fun v => if v.uid == uid then u' else v) })
      else
        (u, db)
  | none =>
      let u : User := { uid, credits := 3, unlimitedExpiresAt := none,
                        lastDailyReset := some now, lastPaymentRef := "INIT_BONUS" }
      (u, { db with users := db.users ++ [u] })

/-- Models `LocalDatabase.updateUserCredits` (src/database.js, lines 812-848):
read-modify-write upsert.  For unlimited plans it sets
`unlimitedExpiresAt = now + 30 days` and leaves credits alone; otherwise it
adds `creditsToAdd`.  Always sets `lastPaymentRef` and queues an outbox
`update` for the user document. -/
def updateUserCredits (db : DB) (uid : String) (creditsToAdd : Int)
    (isUnlimited : Bool) (txnRef : String) (now : Nat) : DB :=
  let user? := db.users.find? (fun u => u.uid == uid)
  let baseCredits : Int := match user? with | some u => u.credits | none => 0
  let baseUnlimited : Option Nat := match user? with | some u => u.unlimitedExpiresAt | none => none
  let lastDailyReset : Option Nat := match user? with | some u => u.lastDailyReset | none => some now
  let email : Option String := match user? with | some u => u.email | none => none
  let newCredits : Int := if isUnlimited then baseCredits else baseCredits + creditsToAdd
  let unlimitedExpires : Option Nat :=
    if isUnlimited then some (now + 30 * 86400000) else baseUnlimited
  let db' :=
    match user? with
    | some _ =>
        { db with users := db.users.map (fun v =>
            if v.uid == uid then
              { v with credits := newCredits, unlimitedExpiresAt := unlimitedExpires,
                       lastDailyReset, lastPaymentRef := txnRef }
            else v) }
    | none =>
        { db with users := db.users ++
            [{ uid, email, credits := newCredits, unlimitedExpiresAt := unlimitedExpires,
               lastDailyReset, lastPaymentRef := txnRef }] }
  addToSyncQueue db' "users" uid "update"

/-- Per-row effect of the sweep UPDATE in
`LocalDatabase.expireStaleTransactions` (src/database.js, lines 729-736). -/
def expireOne (cutoff : Nat) (t : Txn) : Txn :=
  if t.status = Status.MANUAL_VERIFYING ∧ t.createdAt < cutoff then
    { t with status := Status.FAILED, failureReason := some "Timeout" }
  else t

/-- Models `LocalDatabase.expireStaleTransactions` (src/database.js, lines
729-736): one raw UPDATE marking every `MANUAL_VERIFYING` row older than
the cutoff as `FAILED`/"Timeout"; returns the number of changed rows.  No
sync item is queued and no user row is touched. -/
def expireStaleTransactions (db : DB) (cutoff : Nat) : Nat × DB :=
  let changes := (db.transactions.filter (fun t =>
    decide (t.status = Status.MANUAL_VERIFYING ∧ t.createdAt < cutoff))).length
  (changes, { db with transactions := db.transactions.map (expireOne cutoff) })

/-- The stale-transaction sweep tick of src/server.js (lines 1495-1506):
cutoff is 60 seconds before now. -/
def sweepTick (db : DB) (now : Nat) : Nat × DB :=
  expireStaleTransactions db (now - 60000)

/-- Models `LocalDatabase.getPendingSyncItems` (src/database.js):
`SELECT * FROM sync_queue ORDER BY id ASC LIMIT ?`.  Queue rows are
appended with strictly increasing AUTOINCREMENT ids, so id order is list
(insertion) order and the query is the first `limit` elements. -/
def getPendingSyncItems (db : DB) (limit : Nat) : List SyncItem :=
  db.syncQueue.take limit

/-- Models `LocalDatabase.removeSyncItems` (src/database.js):
`DELETE FROM sync_queue WHERE id IN (...)`. -/
def removeSyncItems (db : DB) (ids : List Nat) : DB :=
  { db with syncQueue := db.syncQueue.filter (fun s => ! ids.contains s.id) }

/-- Models `SyncService.processQueue` (src/services/sync.js, lines 29-61).
`pushOk` models whether the remote Firestore write for an item succeeds.
Both the `try` branch and the `catch` branch push the item id onto
`processedIds` (a failed push is logged and skipped), after which every
processed id is deleted from the queue. -/
def processQueue (db : DB) (pushOk : SyncItem → Bool) : DB :=
  let items := getPendingSyncItems db 20
  if items.length = 0 then db
  else
    let processedIds := items.foldl (fun acc item =>
      if pushOk item then acc ++ [item.id] else acc ++ [item.id]) []
    if processedIds.length > 0 then removeSyncItems db processedIds else db

/-- HTTP response as far as the verified properties observe it: the status
code, plus the `remaining` field of the consume endpoint's JSON body. -/
structure HttpResp where
  code : Nat
  remaining : Option Int := none
deriving DecidableEq, Repr

/-- Success detection of the webhook handler (src/server.js line 1028). -/
def isSuccessSignal (status? event? : Option String) : Bool :=
  status? == some "success" || status? == some "Success" ||
    status? == some "Completed" || event? == some "payment.success" ||
    event? == some "transaction.success"

/-- Failure detection of the webhook handler (src/server.js line 1029). -/
def isFailedSignal (status? event? : Option String) : Bool :=
  status? == some "failed" || status? == some "Failed" ||
    event? == some "payment.failed"

/-- The `POST /api/callback` webhook handler (src/server.js, lines
996-1069).  `txnId?`/`status?`/`event?` are the fields extracted from the
request body.  When the transaction's plan is missing from `PLANS`,
reading `plan.credits` throws before any DB write; the catch block answers
500 with both stores untouched. -/
def apiCallback (db : DB) (txnId? : Option String)
    (status? event? : Option String) (now : Nat) : HttpResp × DB :=
  match txnId? with
  | none => ({ code := 400 }, db)
  | some txnId =>
    match getTransaction db txnId with
    | none => ({ code := 404 }, db)
    | some txn =>
      if txn.status = Status.COMPLETED then
        ({ code := 200 }, db)
      else if isSuccessSignal status? event? then
        match PLANS txn.planId with
        | none => ({ code := 500 }, db)
        | some plan =>
          let db1 := updateUserCredits db txn.uid plan.credits
            (txn.planId == "unlimited") txnId now
          let db2 := updateTransactionStatus db1 txnId Status.COMPLETED
            (some now) none none
          ({ code := 200 }, db2)
      else if isFailedSignal status? event? then
        -- the source passes `{failedAt}`, whose destructured
        -- verifiedAt/failureReason/verificationMetadata are all undefined
        ({ code := 200 }, updateTransactionStatus db txnId Status.FAILED none none none)
      else
        ({ code := 200 }, db)

/-- The `POST /api/verify-result` handler (src/server.js, lines 1217-1251).
The request-shape guard (`!transactionId || isValid === undefined`) is
upstream of the modelled inputs.  `metadata` is the already-serialized
verification metadata. -/
def apiVerifyResult (db : DB) (txnId : String) (isValid : Bool)
    (metadata : Option String) (now : Nat) : HttpResp × DB :=
  match getTransaction db txnId with
  | none => ({ code := 404 }, db)
  | some txn =>
    if txn.status ≠ Status.MANUAL_VERIFYING then
      ({ code := 400 }, db)
    else if isValid then
      match PLANS txn.planId with
      | none => ({ code := 500 }, db)
      | some plan =>
        let db1 := updateUserCredits db txn.uid plan.credits
          (txn.planId == "unlimited") txnId now
        let db2 := updateTransactionStatus db1 txnId Status.COMPLETED
          (some now) none metadata
        ({ code := 200 }, db2)
    else
      ({ code := 200 },
        updateTransactionStatus db txnId Status.FAILED (some now) none metadata)

/-- ASCII uppercase of one character, as JS `toUpperCase` acts on the
code points occurring here. -/
def jsToUpperChar (c : Char) : Char :=
  if 'a' ≤ c ∧ c ≤ 'z' then Char.ofNat (c.toNat - 32) else c

/-- JS `String.prototype.toUpperCase` on the strings relevant here. -/
def jsToUpper (s : String) : String :=
  String.mk (s.data.map jsToUpperChar)

/-- Whitespace stripped by JS `String.prototype.trim`. -/
def isJsWhitespace (c : Char) : Bool :=
  c == ' ' || c == '\t' || c == '\n' || c == '\r'

/-- JS `String.prototype.trim`: drop whitespace from both ends. -/
def jsTrim (s : String) : String :=
  String.mk (((s.data.dropWhile isJsWhitespace).reverse.dropWhile isJsWhitespace).reverse)

/-- Character class of the manual-code regex `[A-Z0-9]`. -/
def isManualCodeChar (c : Char) : Bool :=
  (decide ('A' ≤ c) && decide (c ≤ 'Z')) || (decide ('0' ≤ c) && decide (c ≤ '9'))

/-- The regex test `/^[A-Z0-9]{10}$/` of src/server.js line 1087. -/
def isValidManualCode (s : String) : Bool :=
  s.length == 10 && s.toList.all isManualCodeChar

/-- The `POST /api/manual-pay` handler (src/server.js, lines 1074-1130).
Empty strings model the falsy missing-field inputs. -/
def apiManualPay (db : DB) (code planId uid phone : String) (now : Nat) :
    HttpResp × DB :=
  if code = "" ∨ planId = "" ∨ uid = "" then ({ code := 400 }, db)
  else
    match PLANS planId with
    | none => ({ code := 400 }, db)
    | some plan =>
      let uniqueCode := jsTrim (jsToUpper code)
      if ¬ (isValidManualCode uniqueCode = true) then ({ code := 400 }, db)
      else
        let existing := getTransactionByCode db uniqueCode
        if (existing.map (fun t => t.status)) == some Status.COMPLETED then
          ({ code := 400 }, db)
        else
          let transactionId := "txn_" ++ toString now
          let db1 := createTransaction db
            { id := transactionId, uid, planId, amount := plan.price,
              phone := if phone = "" then "MANUAL" else phone,
              mpesaCode := some uniqueCode, status := Status.MANUAL_VERIFYING,
              type := "MANUAL", createdAt := now }
          ({ code := 200 }, db1)

/-- Is the account's unlimited plan active at `now`
(`new Date(user.unlimitedExpiresAt) > new Date()`)? -/
def unlimitedActive (u : User) (now : Nat) : Bool :=
  match u.unlimitedExpiresAt with
  | some t => decide (now < t)
  | none => false

/-- The `POST /api/user/consume` handler (src/server.js, lines 1343-1384).
The handler's `if (!user) 404` branch is unreachable because `getUser`
lazily creates the account, so it is not modelled. -/
def apiConsume (db : DB) (uid : String) (now : Nat) : HttpResp × DB :=
  let r := getUser db uid now
  let user := r.1
  let db1 := r.2
  if unlimitedActive user now then
    ({ code := 200, remaining := some 9999 }, db1)
  else if user.credits > 0 then
    let newCredits := user.credits - 1
    ({ code := 200, remaining := some newCredits },
      updateUserCredits db1 uid (-1) false "CONSUME" now)
  else
    ({ code := 403 }, db1)

/-! ### General helper lemmas -/

/-- Lemma: `find?` commutes with a `map` whose function preserves the predicate. -/
theorem find?_map_pres {α : Type} (p : α → Bool) (f : α → α)
    (hp : ∀ a, p (f a) = p a) (l : List α) :
    (l.map f).find? p = (l.find? p).map f := by
  rw [List.find?_map]
  have hfun : (p ∘ f) = p := by
    funext a
    exact hp a
  rw [hfun]

/-! ### Component-preservation lemmas for the store operations -/

theorem transactions_addToSyncQueue (db : DB) (c d o : String) :
    (addToSyncQueue db c d o).transactions = db.transactions := rfl

theorem users_addToSyncQueue (db : DB) (c d o : String) :
    (addToSyncQueue db c d o).users = db.users := rfl

theorem users_updateTransactionStatus (db : DB) (id : String) (st : Status)
    (v : Option Nat) (fr m : Option String) :
    (updateTransactionStatus db id st v fr m).users = db.users := rfl

theorem transactions_updateUserCredits (db : DB) (uid : String) (add : Int)
    (unl : Bool) (ref : String) (now : Nat) :
    (updateUserCredits db uid add unl ref now).transactions = db.transactions := by
  unfold updateUserCredits
  cases db.users.find? (fun u => u.uid == uid) <;> rfl

/-- Looking up the updated transaction after `updateTransactionStatus`. -/
theorem getTransaction_updateTransactionStatus (db : DB) (id : String)
    (st : Status) (v : Option Nat) (fr m : Option String) :
    getTransaction (updateTransactionStatus db id st v fr m) id
      = (getTransaction db id).map (fun t =>
          { t with status := st, verifiedAt := v, failureReason := fr,
                   verificationMetadata := m }) := by
  have htr : (updateTransactionStatus db id st v fr m).transactions
      = db.transactions.map (fun t => if t.id == id then
          { t with status := st, verifiedAt := v, failureReason := fr,
                   verificationMetadata := m } else t) := rfl
  unfold getTransaction
  rw [htr]
  rw [find?_map_pres (fun (t : Txn) => t.id == id)
    (fun (t : Txn) => if t.id == id then
        { t with status := st, verifiedAt := v, failureReason := fr,
                 verificationMetadata := m } else t)
    (by intro a; by_cases h : a.id == id <;> simp [h])]
  cases hfind : db.transactions.find? (fun t => t.id == id) with
  | none => rfl
  | some t =>
    have ht := List.find?_some hfind
    have ht2 : t.id = id := by simpa using ht
    simp [ht, ht2]

/-- Effect of `updateUserCredits` on an existing account with `isUnlimited = false`:
the account's credits move by exactly the delta and the payment ref is
recorded; everything else on the account is untouched. -/
theorem find?_updateUserCredits_found (db : DB) (uid : String) (add : Int)
    (ref : String) (now : Nat) (u : User)
    (h : db.users.find? (fun v => v.uid == uid) = some u) :
    (updateUserCredits db uid add false ref now).users.find? (fun v => v.uid == uid)
      = some { u with credits := u.credits + add, lastPaymentRef := ref } := by
  have hu := List.find?_some h
  have hus : (updateUserCredits db uid add false ref now).users
      = db.users.map (fun v => if v.uid == uid then
          { v with credits := u.credits + add,
                   unlimitedExpiresAt := u.unlimitedExpiresAt,
                   lastDailyReset := u.lastDailyReset,
                   lastPaymentRef := ref } else v) := by
    unfold updateUserCredits
    simp only [h]
    rfl
  rw [hus]
  rw [find?_map_pres (fun (v : User) => v.uid == uid)
    (fun (v : User) => if v.uid == uid then
        { v with credits := u.credits + add, unlimitedExpiresAt := u.unlimitedExpiresAt,
                 lastDailyReset := u.lastDailyReset, lastPaymentRef := ref } else v)
    (by intro a; by_cases ha : a.uid == uid <;> simp [ha, hu])]
  rw [h]
  have hu2 : u.uid = uid := by simpa using hu
  simp [hu, hu2]

/-- Lemma: `getUser` is a no-op when the account exists and its daily reset was
already evaluated today. -/
theorem getUser_noop (db : DB) (uid : String) (now : Nat) (u : User)
    (h : db.users.find? (fun v => v.uid == uid) = some u)
    (hday : u.lastDailyReset.map dayOf = some (dayOf now)) :
    getUser db uid now = (u, db) := by
  unfold getUser
  rw [h]
  simp [hday]

theorem getTransaction_updateUserCredits (db : DB) (uid : String) (add : Int)
    (unl : Bool) (ref : String) (now : Nat) (id : String) :
    getTransaction (updateUserCredits db uid add unl ref now) id
      = getTransaction db id := by
  unfold getTransaction
  rw [transactions_updateUserCredits]

/-! ### Claim theorems -/

/-- C2: for every transaction whose status is COMPLETED, delivering a
webhook again via the /api/callback handler returns success (200) as a
no-op: the whole database state — every user's credit balance and the
transaction record included — is unchanged, and no error is reported. -/
theorem C2_webhook_idempotent_on_completed (db : DB) (txnId : String)
    (txn : Txn) (status? event? : Option String) (now : Nat)
    (h : getTransaction db txnId = some txn)
    (hc : txn.status = Status.COMPLETED) :
    apiCallback db (some txnId) status? event? now = ({ code := 200 }, db) := by
  unfold apiCallback
  simp [h, hc]

def txnC2 : Txn :=
  { id := "t2", uid := "u1", planId := "starter", amount := 10,
    phone := "0712345678", status := Status.COMPLETED, type := "STK",
    createdAt := 0, verifiedAt := some 10 }

def dbC2 : DB :=
  { transactions := [txnC2],
    users := [{ uid := "u1", credits := 3, lastDailyReset := some 10,
                lastPaymentRef := "t2" }],
    syncQueue := [], nextSyncId := 0 }

/-- Witness for C2 at a concrete completed transaction. -/
theorem C2_webhook_idempotent_on_completed_witness :
    apiCallback dbC2 (some "t2") (some "Success") none 1000
      = ({ code := 200 }, dbC2) :=
  C2_webhook_idempotent_on_completed dbC2 "t2" txnC2 (some "Success") none 1000
    (by decide) (by decide)

/-- C10: for every PENDING transaction whose planId has no entry in the
static plan catalog, a successful webhook delivered to /api/callback
throws while reading `plan.credits`, before any write: the handler
answers 500 and the database — transaction status and all credit
balances — is exactly unchanged. -/
theorem C10_unknown_plan_webhook_rejected (db : DB) (txnId : String)
    (txn : Txn) (status? event? : Option String) (now : Nat)
    (h : getTransaction db txnId = some txn)
    (hp : txn.status = Status.PENDING)
    (hplan : PLANS txn.planId = none)
    (hs : isSuccessSignal status? event? = true) :
    apiCallback db (some txnId) status? event? now = ({ code := 500 }, db) := by
  unfold apiCallback
  simp [h, hp, hplan, hs]

def txnC10 : Txn :=
  { id := "txn_manual_7", uid := "u3", planId := "manual", amount := 50,
    phone := "N/A", mpesaCode := some "MANUAL_ENTRY",
    status := Status.PENDING, type := "MANUAL_ADMIN", createdAt := 0 }

def dbC10 : DB :=
  { transactions := [txnC10],
    users := [{ uid := "u3", credits := 1, lastDailyReset := some 10,
                lastPaymentRef := "X" }],
    syncQueue := [], nextSyncId := 0 }

/-- Witness for C10: an admin-entered PENDING transaction with planId
"manual" (absent from the catalog) plus a success webhook. -/
theorem C10_unknown_plan_webhook_rejected_witness :
    apiCallback dbC10 (some "txn_manual_7") (some "Success") none 5000
      = ({ code := 500 }, dbC10) :=
  C10_unknown_plan_webhook_rejected dbC10 "txn_manual_7" txnC10
    (some "Success") none 5000 (by decide) (by decide) (by decide) (by decide)

/-- C9: for every manual-pay request with its required fields present and a
known plan, the confirmation code is normalized by uppercasing and
trimming, and when the normalized code fails the `^[A-Z0-9]{10}$` test the
request is answered 400 with the database exactly unchanged — no
transaction row and no outbox item is created. -/
theorem C9_manual_code_validation (db : DB) (code planId uid phone : String)
    (now : Nat) (plan : Plan)
    (hc : code ≠ "") (hp : planId ≠ "") (hu : uid ≠ "")
    (hplan : PLANS planId = some plan)
    (hbad : isValidManualCode (jsTrim (jsToUpper code)) = false) :
    apiManualPay db code planId uid phone now = ({ code := 400 }, db) := by
  unfold apiManualPay
  rw [if_neg (by simp [hc, hp, hu])]
  rw [hplan]
  simp [hbad]

def dbC9 : DB := { transactions := [], users := [], syncQueue := [], nextSyncId := 0 }

/-- Witness for C9: code " qx12 " normalizes to "QX12", which is not 10
characters, so the request is rejected and the empty stores stay empty. -/
theorem C9_manual_code_validation_witness :
    apiManualPay dbC9 " qx12 " "starter" "u9" "0712345678" 77
      = ({ code := 400 }, dbC9) :=
  C9_manual_code_validation dbC9 " qx12 " "starter" "u9" "0712345678" 77
    { credits := 3, price := 10 }
    (by decide) (by decide) (by decide) (by decide) (by decide)

def txnC1 : Txn :=
  { id := "t1", uid := "u1", planId := "starter", amount := 10,
    phone := "0712345678", status := Status.FAILED, type := "STK",
    createdAt := 0, failureReason := some "Timeout" }

def dbC1 : DB :=
  { transactions := [txnC1],
    users := [{ uid := "u1", credits := 0, lastDailyReset := some 999000,
                lastPaymentRef := "X" }],
    syncQueue := [], nextSyncId := 0 }

/-- Counterexample to C1: a FAILED transaction that receives a success
webhook is NOT rejected — the handler answers 200, moves the transaction
to COMPLETED and credits the user (0 → 3 credits), mutating the store. -/
theorem C1_counterexample_failed_txn_completed :
    (apiCallback dbC1 (some "t1") (some "Success") none 1000000).1.code = 200 ∧
    (getTransaction (apiCallback dbC1 (some "t1") (some "Success") none 1000000).2 "t1").map
      (fun t => t.status) = some Status.COMPLETED ∧
    ((apiCallback dbC1 (some "t1") (some "Success") none 1000000).2.users.map
      (fun u => u.credits)) = [3] ∧
    (apiCallback dbC1 (some "t1") (some "Success") none 1000000).2 ≠ dbC1 := by
  decide

/-- C1 amended: the /api/callback handler's only status guard is the
COMPLETED idempotency check.  A success-outcome webhook for a transaction
in ANY other status — FAILED and MANUAL_VERIFYING included — whose plan is
in the catalog is accepted with 200, transitions the transaction to
COMPLETED, and applies credit fulfillment (here for a non-unlimited plan on
an existing account: credits increase by exactly the plan's credits).  In
particular a FAILED transaction can move to COMPLETED and trigger
fulfillment. -/
theorem C1_amended_only_completed_guard (db : DB) (txnId : String)
    (txn : Txn) (status? event? : Option String) (now : Nat) (plan : Plan)
    (u : User)
    (h : getTransaction db txnId = some txn)
    (hnc : txn.status ≠ Status.COMPLETED)
    (hs : isSuccessSignal status? event? = true)
    (hplan : PLANS txn.planId = some plan)
    (hnu : txn.planId ≠ "unlimited")
    (hu : db.users.find? (fun v => v.uid == txn.uid) = some u) :
    (apiCallback db (some txnId) status? event? now).1.code = 200 ∧
    (getTransaction (apiCallback db (some txnId) status? event? now).2 txnId).map
      (fun t => t.status) = some Status.COMPLETED ∧
    ((apiCallback db (some txnId) status? event? now).2.users.find?
      (fun v => v.uid == txn.uid)).map (fun v => v.credits)
      = some (u.credits + plan.credits) := by
  have hbu : (txn.planId == "unlimited") = false := by simpa using hnu
  have hr : apiCallback db (some txnId) status? event? now
      = ({ code := 200 },
          updateTransactionStatus
            (updateUserCredits db txn.uid plan.credits false txnId now)
            txnId Status.COMPLETED (some now) none none) := by
    unfold apiCallback
    simp [h, hnc, hs, hplan, hbu]
  have hr1 : (apiCallback db (some txnId) status? event? now).1
      = { code := 200 } := by rw [hr]
  have hr2 : (apiCallback db (some txnId) status? event? now).2
      = updateTransactionStatus
          (updateUserCredits db txn.uid plan.credits false txnId now)
          txnId Status.COMPLETED (some now) none none := by rw [hr]
  refine ⟨by rw [hr1], ?_, ?_⟩
  · rw [hr2, getTransaction_updateTransactionStatus,
      getTransaction_updateUserCredits, h]
    simp
  · rw [hr2, users_updateTransactionStatus,
      find?_updateUserCredits_found db txn.uid plan.credits txnId now u hu]
    simp

/-- Witness for the amended C1 at the concrete FAILED transaction. -/
theorem C1_amended_only_completed_guard_witness :
    (apiCallback dbC1 (some "t1") (some "Success") none 1000000).1.code = 200 ∧
    (getTransaction (apiCallback dbC1 (some "t1") (some "Success") none 1000000).2 "t1").map
      (fun t => t.status) = some Status.COMPLETED ∧
    ((apiCallback dbC1 (some "t1") (some "Success") none 1000000).2.users.find?
      (fun v => v.uid == "u1")).map (fun v => v.credits) = some 3 :=
  C1_amended_only_completed_guard dbC1 "t1" txnC1 (some "Success") none
    1000000 { credits := 3, price := 10 }
    { uid := "u1", credits := 0, lastDailyReset := some 999000, lastPaymentRef := "X" }
    (by decide) (by decide) (by decide) (by decide) (by decide) (by decide)

/-- The /api/verify-result handler rejects any transaction that is not in
MANUAL_VERIFYING with a 400 and leaves the database untouched. -/
theorem apiVerifyResult_not_manual (db : DB) (txnId : String) (txn : Txn)
    (isValid : Bool) (meta : Option String) (now : Nat)
    (h : getTransaction db txnId = some txn)
    (hs : txn.status ≠ Status.MANUAL_VERIFYING) :
    apiVerifyResult db txnId isValid meta now = ({ code := 400 }, db) := by
  unfold apiVerifyResult
  simp [h, hs]

/-- C3: submitVerification's state guard.  Part one: for every transaction
not in MANUAL_VERIFYING the /api/verify-result handler answers 400 and
mutates neither the transaction store nor any credit balance.  Part two:
after a first successful submitVerification completes a MANUAL transaction
(non-unlimited plan, existing account) and credits the user with exactly
the plan's credits, a second submitVerification on the same id is rejected
with 400 and changes nothing. -/
theorem C3_submit_verification_state_guard :
    (∀ (db : DB) (txnId : String) (txn : Txn) (isValid : Bool)
        (meta : Option String) (now : Nat),
      getTransaction db txnId = some txn →
      txn.status ≠ Status.MANUAL_VERIFYING →
      apiVerifyResult db txnId isValid meta now = ({ code := 400 }, db)) ∧
    (∀ (db : DB) (txnId : String) (txn : Txn) (meta meta2 : Option String)
        (now now2 : Nat) (plan : Plan) (u : User),
      getTransaction db txnId = some txn →
      txn.status = Status.MANUAL_VERIFYING →
      PLANS txn.planId = some plan →
      txn.planId ≠ "unlimited" →
      db.users.find? (fun v => v.uid == txn.uid) = some u →
      (apiVerifyResult db txnId true meta now).1.code = 200 ∧
      (getTransaction (apiVerifyResult db txnId true meta now).2 txnId).map
        (fun t => t.status) = some Status.COMPLETED ∧
      ((apiVerifyResult db txnId true meta now).2.users.find?
        (fun v => v.uid == txn.uid)).map (fun v => v.credits)
        = some (u.credits + plan.credits) ∧
      apiVerifyResult (apiVerifyResult db txnId true meta now).2 txnId true meta2 now2
        = ({ code := 400 }, (apiVerifyResult db txnId true meta now).2)) := by
  constructor
  · intro db txnId txn isValid meta now h hs
    exact apiVerifyResult_not_manual db txnId txn isValid meta now h hs
  · intro db txnId txn meta meta2 now now2 plan u h hs hplan hnu hu
    have hbu : (txn.planId == "unlimited") = false := by simpa using hnu
    have hr : apiVerifyResult db txnId true meta now
        = ({ code := 200 },
            updateTransactionStatus
              (updateUserCredits db txn.uid plan.credits false txnId now)
              txnId Status.COMPLETED (some now) none meta) := by
      unfold apiVerifyResult
      simp [h, hs, hplan, hbu]
    have hr1 : (apiVerifyResult db txnId true meta now).1 = { code := 200 } := by
      rw [hr]
    have hr2 : (apiVerifyResult db txnId true meta now).2
        = updateTransactionStatus
            (updateUserCredits db txn.uid plan.credits false txnId now)
            txnId Status.COMPLETED (some now) none meta := by
      rw [hr]
    have hget : getTransaction (apiVerifyResult db txnId true meta now).2 txnId
        = some { txn with status := Status.COMPLETED, verifiedAt := some now,
                          failureReason := none, verificationMetadata := meta } := by
      rw [hr2, getTransaction_updateTransactionStatus,
        getTransaction_updateUserCredits, h]
      rfl
    refine ⟨by rw [hr1], by rw [hget]; rfl, ?_, ?_⟩
    · rw [hr2, users_updateTransactionStatus,
        find?_updateUserCredits_found db txn.uid plan.credits txnId now u hu]
      rfl
    · exact apiVerifyResult_not_manual _ txnId _ true meta2 now2 hget (by simp)

def txnC3 : Txn :=
  { id := "t3", uid := "u1", planId := "starter", amount := 10,
    phone := "MANUAL", mpesaCode := some "AB3DEFGH1J",
    status := Status.MANUAL_VERIFYING, type := "MANUAL", createdAt := 0 }

def dbC3 : DB :=
  { transactions := [txnC3],
    users := [{ uid := "u1", credits := 2, lastDailyReset := some 10,
                lastPaymentRef := "X" }],
    syncQueue := [], nextSyncId := 0 }

def txnC3b : Txn :=
  { id := "t3b", uid := "u1", planId := "starter", amount := 10,
    phone := "MANUAL", status := Status.FAILED, type := "MANUAL", createdAt := 0 }

def dbC3b : DB :=
  { transactions := [txnC3b], users := [], syncQueue := [], nextSyncId := 0 }

/-- Witness for C3: a FAILED transaction is rejected by /api/verify-result,
and the concrete MANUAL_VERIFYING scenario completes once (crediting
2 + 3 credits) and rejects the replay. -/
theorem C3_submit_verification_state_guard_witness :
    (apiVerifyResult dbC3b "t3b" true none 50 = ({ code := 400 }, dbC3b)) ∧
    ((apiVerifyResult dbC3 "t3" true none 100).1.code = 200 ∧
     (getTransaction (apiVerifyResult dbC3 "t3" true none 100).2 "t3").map
       (fun t => t.status) = some Status.COMPLETED ∧
     ((apiVerifyResult dbC3 "t3" true none 100).2.users.find?
       (fun v => v.uid == "u1")).map (fun v => v.credits) = some 5 ∧
     apiVerifyResult (apiVerifyResult dbC3 "t3" true none 100).2 "t3" true none 999
       = ({ code := 400 }, (apiVerifyResult dbC3 "t3" true none 100).2)) :=
  ⟨C3_submit_verification_state_guard.1 dbC3b "t3b" txnC3b true none 50
      (by decide) (by decide),
   C3_submit_verification_state_guard.2 dbC3 "t3" txnC3 none none 100 999
      { credits := 3, price := 10 }
      { uid := "u1", credits := 2, lastDailyReset := some 10, lastPaymentRef := "X" }
      (by decide) (by decide) (by decide) (by decide) (by decide)⟩

/-- Looking up any transaction after the stale sweep sees the per-row
sweep image. -/
theorem getTransaction_expireStale (db : DB) (c : Nat) (id : String) :
    getTransaction (expireStaleTransactions db c).2 id
      = (getTransaction db id).map (expireOne c) := by
  have htr : (expireStaleTransactions db c).2.transactions
      = db.transactions.map (expireOne c) := rfl
  unfold getTransaction
  rw [htr]
  rw [find?_map_pres (fun (t : Txn) => t.id == id) (expireOne c)
    (by intro a; unfold expireOne; split <;> rfl)]

def txnC4 : Txn :=
  { id := "t4", uid := "u2", planId := "pro", amount := 29,
    phone := "0700000000", status := Status.PENDING, type := "STK",
    createdAt := 0 }

def dbC4 : DB :=
  { transactions := [txnC4], users := [], syncQueue := [], nextSyncId := 0 }

/-- Counterexample to C4: an AUTOMATED transaction created PENDING and
older than the sweep cutoff (createdAt 0 against cutoff 940000) is NOT
marked FAILED by a sweep tick â its status is still PENDING and the whole
database is unchanged. -/
theorem C4_counterexample_pending_not_swept :
    (getTransaction (sweepTick dbC4 1000000).2 "t4").map (fun t => t.status)
      = some Status.PENDING ∧
    ¬ ((getTransaction (sweepTick dbC4 1000000).2 "t4").map (fun t => t.status)
      = some Status.FAILED) ∧
    (sweepTick dbC4 1000000).2 = dbC4 := by
  decide

/-- C4 amended: the stale-transaction sweep only expires MANUAL_VERIFYING
transactions.  An AUTOMATED transaction created PENDING that receives no
webhook is untouched by a sweep tick, however old it is: after the tick
`getTransaction` returns the identical record, still PENDING, with no
failureReason set. -/
theorem C4_amended_sweep_skips_pending (db : DB) (id : String) (txn : Txn)
    (now : Nat)
    (h : getTransaction db id = some txn)
    (hp : txn.status = Status.PENDING) :
    getTransaction (sweepTick db now).2 id = some txn := by
  unfold sweepTick
  rw [getTransaction_expireStale, h]
  have : expireOne (now - 60000) txn = txn := by
    unfold expireOne
    rw [if_neg]
    simp [hp]
  simp [this]

/-- Witness for the amended C4 at the concrete stale PENDING transaction. -/
theorem C4_amended_sweep_skips_pending_witness :
    getTransaction (sweepTick dbC4 1000000).2 "t4" = some txnC4 :=
  C4_amended_sweep_skips_pending dbC4 "t4" txnC4 1000000 (by decide) (by decide)

/-- The per-row sweep image is idempotent: a row already swept (or never
matching) is unchanged by a second sweep. -/
theorem expireOne_idem (c : Nat) (t : Txn) :
    expireOne c (expireOne c t) = expireOne c t := by
  by_cases hcond : t.status = Status.MANUAL_VERIFYING ∧ t.createdAt < c
  · simp [expireOne, hcond]
  · simp [expireOne, hcond]

/-- C5: one run of the stale-verification sweep (i) never changes any
user's credit balance (and queues nothing), (ii) is idempotent â a second
run on the swept state changes nothing, (iii) marks every MANUAL_VERIFYING
transaction older than the cutoff FAILED with reason "Timeout", and
(iv) leaves every other transaction exactly as it was. -/
theorem C5_stale_sweep_exact (db : DB) (cutoff : Nat) :
    (expireStaleTransactions db cutoff).2.users = db.users ∧
    (expireStaleTransactions db cutoff).2.syncQueue = db.syncQueue ∧
    (expireStaleTransactions (expireStaleTransactions db cutoff).2 cutoff).2
      = (expireStaleTransactions db cutoff).2 ∧
    (∀ t ∈ db.transactions,
      t.status = Status.MANUAL_VERIFYING → t.createdAt < cutoff →
      { t with status := Status.FAILED, failureReason := some "Timeout" }
        ∈ (expireStaleTransactions db cutoff).2.transactions) ∧
    (∀ t ∈ db.transactions,
      ¬ (t.status = Status.MANUAL_VERIFYING ∧ t.createdAt < cutoff) →
      t ∈ (expireStaleTransactions db cutoff).2.transactions) := by
  refine ⟨rfl, rfl, ?_, ?_, ?_⟩
  · have hcomp : expireOne cutoff ∘ expireOne cutoff = expireOne cutoff := by
      funext t
      exact expireOne_idem cutoff t
    have hmap : ((expireStaleTransactions db cutoff).2.transactions).map (expireOne cutoff)
        = (expireStaleTransactions db cutoff).2.transactions := by
      have h1 : (expireStaleTransactions db cutoff).2.transactions
          = db.transactions.map (expireOne cutoff) := rfl
      rw [h1, List.map_map, hcomp]
    show ({ (expireStaleTransactions db cutoff).2 with
      transactions := ((expireStaleTransactions db cutoff).2.transactions).map (expireOne cutoff) } : DB)
      = (expireStaleTransactions db cutoff).2
    rw [hmap]
  · intro t ht hstat hage
    have himg : expireOne cutoff t
        = { t with status := Status.FAILED, failureReason := some "Timeout" } := by
      unfold expireOne
      rw [if_pos ⟨hstat, hage⟩]
    rw [← himg]
    exact List.mem_map_of_mem (expireOne cutoff) ht
  · intro t ht hcond
    have himg : expireOne cutoff t = t := by
      unfold expireOne
      rw [if_neg hcond]
    rw [← himg]
    exact List.mem_map_of_mem (expireOne cutoff) ht

def txnC5 : Txn :=
  { id := "m1", uid := "u1", planId := "starter", amount := 10,
    phone := "MANUAL", mpesaCode := some "AB3DEFGH1J",
    status := Status.MANUAL_VERIFYING, type := "MANUAL", createdAt := 0 }

def txnC5b : Txn :=
  { id := "m2", uid := "u1", planId := "starter", amount := 10,
    phone := "0712345678", status := Status.COMPLETED, type := "STK",
    createdAt := 0, verifiedAt := some 5 }

def dbC5 : DB :=
  { transactions := [txnC5, txnC5b],
    users := [{ uid := "u1", credits := 7, lastDailyReset := some 10,
                lastPaymentRef := "m2" }],
    syncQueue := [], nextSyncId := 3 }

/-- Witness for C5 on a concrete store holding one stale MANUAL_VERIFYING
transaction and one COMPLETED transaction. -/
theorem C5_stale_sweep_exact_witness :
    (expireStaleTransactions dbC5 100).2.users = dbC5.users ∧
    (expireStaleTransactions (expireStaleTransactions dbC5 100).2 100).2
      = (expireStaleTransactions dbC5 100).2 ∧
    ({ txnC5 with status := Status.FAILED, failureReason := some "Timeout" }
      ∈ (expireStaleTransactions dbC5 100).2.transactions) ∧
    (txnC5b ∈ (expireStaleTransactions dbC5 100).2.transactions) := by
  have h := C5_stale_sweep_exact dbC5 100
  exact ⟨h.1, h.2.2.1,
    h.2.2.2.1 txnC5 (by decide) (by decide) (by decide),
    h.2.2.2.2 txnC5b (by decide) (by decide)⟩

/-- Replacing the (unique first) matching user row under `find?`. -/
theorem find?_replace (l : List User) (uid : String) (u u' : User)
    (h : l.find? (fun v => v.uid == uid) = some u)
    (hu' : (u'.uid == uid) = true) :
    (l.map (fun v => if v.uid == uid then u' else v)).find?
      (fun v => v.uid == uid) = some u' := by
  rw [find?_map_pres (fun (v : User) => v.uid == uid)
      (fun (v : User) => if v.uid == uid then u' else v)
      (by intro a; by_cases ha : a.uid == uid <;> simp [ha, hu'])]
  rw [h]
  have h2 : u.uid = uid := by simpa using List.find?_some h
  simp [h2]

/-- C6: the account-read operation `getUser`.
(i) Unknown uid: the account is created with exactly 3 credits and
`lastDailyReset = now` (today), and nothing else in the store changes.
(ii) Known account, reset not from today, credits < 3: credits are set to
exactly 3 (not incremented) and `lastDailyReset` advances to now; every
other field and every other user is untouched.
(iii) Known account, reset not from today, credits ≥ 3: only
`lastDailyReset` advances; credits unchanged.
(iv) Reset already from today: complete no-op. -/
theorem C6_daily_reset_rule (db : DB) (uid : String) (now : Nat) :
    (db.users.find? (fun v => v.uid == uid) = none →
      (getUser db uid now).1.credits = 3 ∧
      (getUser db uid now).1.lastDailyReset = some now ∧
      (getUser db uid now).1.uid = uid ∧
      (getUser db uid now).2.users = db.users ++ [(getUser db uid now).1] ∧
      (getUser db uid now).2.transactions = db.transactions ∧
      (getUser db uid now).2.syncQueue = db.syncQueue) ∧
    (∀ u : User, db.users.find? (fun v => v.uid == uid) = some u →
      u.lastDailyReset.map dayOf ≠ some (dayOf now) → u.credits < 3 →
      (getUser db uid now).1 = { u with credits := 3, lastDailyReset := some now } ∧
      (getUser db uid now).2.users.find? (fun v => v.uid == uid)
        = some (getUser db uid now).1 ∧
      (∀ v ∈ db.users, v.uid ≠ uid → v ∈ (getUser db uid now).2.users) ∧
      (getUser db uid now).2.transactions = db.transactions ∧
      (getUser db uid now).2.syncQueue = db.syncQueue) ∧
    (∀ u : User, db.users.find? (fun v => v.uid == uid) = some u →
      u.lastDailyReset.map dayOf ≠ some (dayOf now) → ¬ (u.credits < 3) →
      (getUser db uid now).1 = { u with lastDailyReset := some now } ∧
      (getUser db uid now).1.credits = u.credits ∧
      (getUser db uid now).2.users.find? (fun v => v.uid == uid)
        = some (getUser db uid now).1 ∧
      (∀ v ∈ db.users, v.uid ≠ uid → v ∈ (getUser db uid now).2.users) ∧
      (getUser db uid now).2.transactions = db.transactions ∧
      (getUser db uid now).2.syncQueue = db.syncQueue) ∧
    (∀ u : User, db.users.find? (fun v => v.uid == uid) = some u →
      u.lastDailyReset.map dayOf = some (dayOf now) →
      getUser db uid now = (u, db)) := by
  refine ⟨?_, ?_, ?_, ?_⟩
  · intro h
    have hres : getUser db uid now
        = ({ uid := uid, credits := 3, unlimitedExpiresAt := none,
             lastDailyReset := some now, lastPaymentRef := "INIT_BONUS" },
           { db with users := db.users ++
              [{ uid := uid, credits := 3, unlimitedExpiresAt := none,
                 lastDailyReset := some now, lastPaymentRef := "INIT_BONUS" }] }) := by
      unfold getUser
      rw [h]
    rw [hres]
    exact ⟨rfl, rfl, rfl, rfl, rfl, rfl⟩
  · intro u h hday hcred
    have hres : getUser db uid now
        = ({ u with credits := 3, lastDailyReset := some now },
           { db with users := db.users.map (fun v =>
              if v.uid == uid then { u with credits := 3, lastDailyReset := some now }
              else v) }) := by
      unfold getUser
      rw [h]
      simp [hday, hcred]
    rw [hres]
    refine ⟨rfl, ?_, ?_, rfl, rfl⟩
    · exact find?_replace db.users uid u _ h (by simpa using List.find?_some h)
    · intro v hv hne
      have : (if v.uid == uid then { u with credits := 3, lastDailyReset := some now } else v) = v := by
        rw [if_neg (by simpa using hne)]
      rw [← this]
      exact List.mem_map_of_mem _ hv
  · intro u h hday hcred
    have hres : getUser db uid now
        = ({ u with lastDailyReset := some now },
           { db with users := db.users.map (fun v =>
              if v.uid == uid then { u with lastDailyReset := some now }
              else v) }) := by
      unfold getUser
      rw [h]
      simp [hday, hcred]
    rw [hres]
    refine ⟨rfl, rfl, ?_, ?_, rfl, rfl⟩
    · exact find?_replace db.users uid u _ h (by simpa using List.find?_some h)
    · intro v hv hne
      have : (if v.uid == uid then { u with lastDailyReset := some now } else v) = v := by
        rw [if_neg (by simpa using hne)]
      rw [← this]
      exact List.mem_map_of_mem _ hv
  · intro u h hday
    exact getUser_noop db uid now u h hday

def uC6a : User := { uid := "a", credits := 0, lastDailyReset := some 0, lastPaymentRef := "X" }

def uC6b : User := { uid := "b", credits := 5, lastDailyReset := some 0, lastPaymentRef := "Y" }

def uC6c : User := { uid := "c", credits := 1, lastDailyReset := some 86400010, lastPaymentRef := "Z" }

def dbC6 : DB :=
  { transactions := [], users := [uC6a, uC6b, uC6c], syncQueue := [], nextSyncId := 0 }

/-- Witness for C6, one concrete instance per branch: unknown uid "n";
uid "a" with 0 credits and yesterday's reset; uid "b" with 5 credits and
yesterday's reset; uid "c" already reset today (now = day 1 + 20 ms). -/
theorem C6_daily_reset_rule_witness :
    ((getUser dbC6 "n" 86400020).1.credits = 3 ∧
      (getUser dbC6 "n" 86400020).1.lastDailyReset = some 86400020) ∧
    ((getUser dbC6 "a" 86400020).1
      = { uC6a with credits := 3, lastDailyReset := some 86400020 }) ∧
    ((getUser dbC6 "b" 86400020).1.credits = 5) ∧
    (getUser dbC6 "c" 86400020 = (uC6c, dbC6)) := by
  have h1 := (C6_daily_reset_rule dbC6 "n" 86400020).1 (by decide)
  have h2 := (C6_daily_reset_rule dbC6 "a" 86400020).2.1 uC6a
    (by decide) (by decide) (by decide)
  have h3 := (C6_daily_reset_rule dbC6 "b" 86400020).2.2.1 uC6b
    (by decide) (by decide) (by decide)
  have h4 := (C6_daily_reset_rule dbC6 "c" 86400020).2.2.2 uC6c
    (by decide) (by decide)
  exact ⟨⟨h1.1, h1.2.1⟩, h2.1, by rw [h3.2.1]; decide, h4⟩

/-- C7: the /api/user/consume handler, for an account whose daily reset
was already applied today (isolating consumption from the reset rule of
C6): with an active unlimited plan it succeeds reporting the 9999
sentinel and changes nothing; otherwise with positive credits it
decrements the stored balance by exactly one and returns the new value;
otherwise it answers 403 Insufficient credits and changes nothing. -/
theorem C7_consume_one (db : DB) (uid : String) (now : Nat) (u : User)
    (h : db.users.find? (fun v => v.uid == uid) = some u)
    (hday : u.lastDailyReset.map dayOf = some (dayOf now)) :
    (unlimitedActive u now = true →
      apiConsume db uid now = ({ code := 200, remaining := some 9999 }, db)) ∧
    (unlimitedActive u now = false → 0 < u.credits →
      (apiConsume db uid now).1
        = { code := 200, remaining := some (u.credits - 1) } ∧
      ((apiConsume db uid now).2.users.find? (fun v => v.uid == uid)).map
        (fun v => v.credits) = some (u.credits - 1) ∧
      (apiConsume db uid now).2.transactions = db.transactions) ∧
    (unlimitedActive u now = false → u.credits ≤ 0 →
      apiConsume db uid now = ({ code := 403 }, db)) := by
  have hg : getUser db uid now = (u, db) := getUser_noop db uid now u h hday
  refine ⟨?_, ?_, ?_⟩
  · intro hunl
    unfold apiConsume
    rw [hg]
    simp [hunl]
  · intro hunl hcred
    have hr : apiConsume db uid now
        = ({ code := 200, remaining := some (u.credits - 1) },
           updateUserCredits db uid (-1) false "CONSUME" now) := by
      unfold apiConsume
      rw [hg]
      simp [hunl, hcred]
    have hr1 : (apiConsume db uid now).1
        = { code := 200, remaining := some (u.credits - 1) } := by rw [hr]
    have hr2 : (apiConsume db uid now).2
        = updateUserCredits db uid (-1) false "CONSUME" now := by rw [hr]
    refine ⟨hr1, ?_, ?_⟩
    · rw [hr2, find?_updateUserCredits_found db uid (-1) "CONSUME" now u h]
      simp [sub_eq_add_neg]
    · rw [hr2, transactions_updateUserCredits]
  · intro hunl hcred
    unfold apiConsume
    rw [hg]
    simp [hunl, not_lt.mpr hcred]

def uC7a : User :=
  { uid := "w1", credits := 0, unlimitedExpiresAt := some 1000,
    lastDailyReset := some 10, lastPaymentRef := "P" }

def uC7b : User :=
  { uid := "w2", credits := 2, lastDailyReset := some 10, lastPaymentRef := "Q" }

def uC7c : User :=
  { uid := "w3", credits := 0, lastDailyReset := some 10, lastPaymentRef := "R" }

def dbC7 : DB :=
  { transactions := [], users := [uC7a, uC7b, uC7c], syncQueue := [], nextSyncId := 0 }

/-- Witness for C7: an unlimited account, a 2-credit account, and an empty
account, all reset today, consumed at now = 100. -/
theorem C7_consume_one_witness :
    (apiConsume dbC7 "w1" 100 = ({ code := 200, remaining := some 9999 }, dbC7)) ∧
    ((apiConsume dbC7 "w2" 100).1 = { code := 200, remaining := some 1 } ∧
     ((apiConsume dbC7 "w2" 100).2.users.find? (fun v => v.uid == "w2")).map
       (fun v => v.credits) = some 1) ∧
    (apiConsume dbC7 "w3" 100 = ({ code := 403 }, dbC7)) := by
  have h1 := (C7_consume_one dbC7 "w1" 100 uC7a (by decide) (by decide)).1 (by decide)
  have h2 := (C7_consume_one dbC7 "w2" 100 uC7b (by decide) (by decide)).2.1
    (by decide) (by decide)
  have h3 := (C7_consume_one dbC7 "w3" 100 uC7c (by decide) (by decide)).2.2
    (by decide) (by decide)
  exact ⟨h1, ⟨h2.1, h2.2.1⟩, h3⟩

/-- The drain loop records every pulled item id, whether or not its remote
push succeeded (both the try and the catch branch push the id). -/
theorem foldl_push_ids (g : SyncItem → Bool) (l : List SyncItem) :
    ∀ acc : List Nat,
      l.foldl (fun acc item =>
        if g item then acc ++ [item.id] else acc ++ [item.id]) acc
        = acc ++ l.map (fun s => s.id) := by
  induction l with
  | nil => intro acc; simp
  | cons a t ih =>
    intro acc
    rw [List.foldl_cons, ite_self, ih, List.map_cons, List.append_assoc]
    rfl

/-- Deleting exactly the ids of the first `n` queue rows from a queue with
pairwise-distinct ids leaves exactly the rows after the first `n`. -/
theorem filter_take_drop :
    ∀ (l : List SyncItem) (n : Nat),
      (l.map (fun s => s.id)).Nodup →
      l.filter (fun s => ! ((l.take n).map (fun s => s.id)).contains s.id)
        = l.drop n := by
  intro l
  induction l with
  | nil => intro n _; simp
  | cons a t ih =>
    intro n hnd
    rw [List.map_cons, List.nodup_cons] at hnd
    cases n with
    | zero => simp
    | succ m =>
      rw [List.take_succ_cons, List.drop_succ_cons, List.map_cons, List.filter_cons]
      have hpa : (! ((a.id :: (t.take m).map (fun s => s.id)).contains a.id)) = false := by
        simp [List.contains_cons]
      rw [hpa]
      simp only [Bool.false_eq_true, if_false]
      have hcong : ∀ s ∈ t,
          (! ((a.id :: (t.take m).map (fun s => s.id)).contains s.id))
            = (! ((t.take m).map (fun s => s.id)).contains s.id) := by
        intro s hs
        have hneq : (s.id == a.id) = false := by
          apply beq_eq_false_iff_ne.mpr
          intro hEq
          exact hnd.1 (hEq ▸ List.mem_map_of_mem (fun s => s.id) hs)
        simp only [List.contains_cons, hneq, Bool.false_or]
      rw [List.filter_congr hcong]
      exact ih m hnd.2

/-- C8: a single drain pass of the outbox pulls at most the batch size
(20) of queued items, as a prefix of the queue (insertion order, oldest
first); after the pass every pulled item is gone from the queue â the
result is independent of which remote pushes succeeded, so failed pushes
are removed too (fire-and-forget) â and the transaction and user stores
are untouched. -/
theorem C8_drain_fire_and_forget (db : DB) (pushOk : SyncItem → Bool)
    (hnd : (db.syncQueue.map (fun s => s.id)).Nodup) :
    (getPendingSyncItems db 20).length ≤ 20 ∧
    (∃ rest, db.syncQueue = getPendingSyncItems db 20 ++ rest) ∧
    (processQueue db pushOk).syncQueue = db.syncQueue.drop 20 ∧
    (∀ s ∈ getPendingSyncItems db 20, s ∉ (processQueue db pushOk).syncQueue) ∧
    (processQueue db pushOk).transactions = db.transactions ∧
    (processQueue db pushOk).users = db.users ∧
    processQueue db pushOk = processQueue db (fun _ => true) := by
  have hcanon : ∀ g : SyncItem → Bool, processQueue db g
      = if (getPendingSyncItems db 20).length = 0 then db
        else removeSyncItems db ((getPendingSyncItems db 20).map (fun s => s.id)) := by
    intro g
    unfold processQueue
    by_cases h0 : (getPendingSyncItems db 20).length = 0
    · rw [if_pos h0, if_pos h0]
    · rw [if_neg h0, if_neg h0]
      rw [foldl_push_ids]
      rw [List.nil_append]
      rw [if_pos (by simpa using Nat.pos_of_ne_zero h0)]
  have hq : (processQueue db pushOk).syncQueue = db.syncQueue.drop 20 := by
    rw [hcanon pushOk]
    by_cases h0 : (getPendingSyncItems db 20).length = 0
    · rw [if_pos h0]
      have hlen : db.syncQueue.length = 0 := by
        have h1 := h0
        unfold getPendingSyncItems at h1
        rw [List.length_take] at h1
        omega
      rw [List.length_eq_zero.mp hlen]
      rfl
    · rw [if_neg h0]
      exact filter_take_drop db.syncQueue 20 hnd
  have hdisj := hnd
  rw [← List.take_append_drop 20 db.syncQueue, List.map_append,
    List.nodup_append] at hdisj
  refine ⟨?_, ⟨db.syncQueue.drop 20, (List.take_append_drop 20 db.syncQueue).symm⟩,
    hq, ?_, ?_, ?_, ?_⟩
  · show (db.syncQueue.take 20).length ≤ 20
    rw [List.length_take]
    exact min_le_left _ _
  · intro s hs hmem
    rw [hq] at hmem
    exact hdisj.2.2 (List.mem_map_of_mem (fun s => s.id) hs)
      (List.mem_map_of_mem (fun s => s.id) hmem)
  · rw [hcanon pushOk]
    by_cases h0 : (getPendingSyncItems db 20).length = 0
    · rw [if_pos h0]
    · rw [if_neg h0]
      rfl
  · rw [hcanon pushOk]
    by_cases h0 : (getPendingSyncItems db 20).length = 0
    · rw [if_pos h0]
    · rw [if_neg h0]
      rfl
  · rw [hcanon pushOk, hcanon (fun _ => true)]

def itC8a : SyncItem :=
  { id := 0, collection := "transactions", docId := "t1", operation := "create" }

def itC8b : SyncItem :=
  { id := 1, collection := "users", docId := "u1", operation := "update" }

def dbC8 : DB :=
  { transactions := [], users := [], syncQueue := [itC8a, itC8b], nextSyncId := 2 }

/-- Witness for C8 on a two-item queue where the second item's remote push
fails: the whole queue is still drained and the result equals an
all-successful drain. -/
theorem C8_drain_fire_and_forget_witness :
    (processQueue dbC8 (fun s => s.id == 0)).syncQueue = dbC8.syncQueue.drop 20 ∧
    itC8b ∉ (processQueue dbC8 (fun s => s.id == 0)).syncQueue ∧
    processQueue dbC8 (fun s => s.id == 0) = processQueue dbC8 (fun _ => true) := by
  have h := C8_drain_fire_and_forget dbC8 (fun s => s.id == 0) (by decide)
  exact ⟨h.2.2.1, h.2.2.2.1 itC8b (by decide), h.2.2.2.2.2.2⟩

end PaymentAPI
